import Mathlib

/-!
# A shallow embedding of `sas-cli` (`src/sas_cli/_main.py`)

This file embeds the behaviour of the `sas-cli` command-line wrapper in Lean 4
and proves the specification claims about it.

Modelling conventions:

* The file system, the INI configuration file and the external SAS session are
  abstracted into explicit parameters (`FS`, `ConstructResult`, `RunEnv`, ...):
  each models exactly the observations the Python code makes of the outside
  world (can a path be opened, does the INI file have a `LOGGING` section,
  which exception does `SASsession()` raise, what do `SYSERR()` /
  `SYSERRORTEXT()` return, ...).
* `print(x)` to stdout/stderr is modelled as appending the printed text to a
  `List String`; the newline appended by Python's `print` and the
  `saspy_logger.info` log lines are not part of the observable model.
* Python string truthiness (`if args.sas_server_logging_dir:`) is modelled as
  `≠ ""`; integer truthiness (`if sys_err:`) as `≠ 0`.
* Python exceptions become explicit sum types (`Except`, dedicated result
  inductives).  Uncaught-exception and `argparse` process-exit semantics are
  modelled in `cliExitCode` (the interpreter exits with status 1 on an
  uncaught exception, and `argparse` calls `sys.exit(2)` when an argument
  fails to convert).
-/

namespace SasCli

/-- The observations the code makes of the local file system and of the
parsed INI configuration file.

* `canOpen p` — whether `open(p)` succeeds;
* `osErrMsg p` — the text of the `OSError` raised when it does not;
* `iniSections f` — the section names present after `ConfigParser.read(f)`
  (a file that does not exist is silently read as empty, giving `[]`);
* `loggingDirs f` — the values of `sas_server_logging_dir` and
  `local_logging_dir` in the file's `LOGGING` section. -/
structure FS where
  canOpen : String → Bool
  osErrMsg : String → String
  iniSections : String → List String
  loggingDirs : String → String × String

/-- Python's `str.endswith`, computed on the character lists (equivalent to
`String.endsWith`, but written so that the kernel can evaluate it). -/
def strEndsWith (s suf : String) : Bool := suf.data.isSuffixOf s.data

/-- Python's `str.startswith`, computed on the character lists. -/
def strStartsWith (s p : String) : Bool := p.data.isPrefixOf s.data

/-- Drop the first `n` characters of a string. -/
def strDrop (s : String) (n : Nat) : String := String.mk (s.data.drop n)

/-- Whitespace for Python's `str.strip()` as `int()` applies it. -/
def isPySpace (c : Char) : Bool :=
  c = ' ' ∨ c = '\t' ∨ c = '\n' ∨ c = '\r' ∨ c = '\x0b' ∨ c = '\x0c'

/-- Python's `str.strip()` on the character list. -/
def pyStrip (cs : List Char) : List Char :=
  ((cs.dropWhile isPySpace).reverse.dropWhile isPySpace).reverse

/-- Outcome of `valid_sas_file`: the path returned unchanged, or an
`argparse.ArgumentTypeError` with its message. -/
inductive ValidateResult
  | ok (path : String)
  | argumentTypeError (msg : String)
deriving DecidableEq

/-- `valid_sas_file` from `src/sas_cli/_main.py` (lines 27–39): try to open
the file (an `OSError` becomes an `ArgumentTypeError`), then require the
`.sas` suffix, otherwise return the path unchanged. -/
def valid_sas_file (fs : FS) (filepath : String) : ValidateResult :=
  if fs.canOpen filepath then
    if strEndsWith filepath ".sas" then ValidateResult.ok filepath
    else ValidateResult.argumentTypeError
      ("The file \x27" ++ filepath ++ "\x27 is not a valid .sas file")
  else ValidateResult.argumentTypeError
    ("Can\x27t open \x27" ++ filepath ++ "\x27: " ++ fs.osErrMsg filepath)

/-- `MAX_OUTPUT_OBS` from `src/sas_cli/_main.py` line 22. -/
def MAX_OUTPUT_OBS : Int := 10000

/-- Numeric value of a list of decimal digits. -/
def digitsToNat (ds : List Char) : Nat :=
  ds.foldl (fun acc c => acc * 10 + (c.toNat - 48)) 0

/-- Python's `int(s)` on a string: strip surrounding whitespace, allow an
optional sign followed by a non-empty run of digits, otherwise raise
`ValueError` (modelled as `none`).  (Underscore digit separators are not
modelled.) -/
def pyInt (s : String) : Option Int :=
  match pyStrip s.data with
  | [] => none
  | c :: cs =>
    let sign : Int := if c = '-' then -1 else 1
    let ds : List Char := if c = '-' ∨ c = '+' then cs else c :: cs
    if ds ≠ [] ∧ ds.all Char.isDigit then some (sign * (digitsToNat ds : Int))
    else none

/-- Outcome of `integer_in_range`: the parsed integer, a typed
`argparse.ArgumentTypeError`, or the plain `ValueError` raised by `int()`. -/
inductive IntRangeResult
  | ok (n : Int)
  | argumentTypeError (msg : String)
  | valueError
deriving DecidableEq

/-- `integer_in_range` from `src/sas_cli/_main.py` (lines 42–48): `int(obs)`
(raising `ValueError` on a non-integer string), then the range check
`1 ≤ n ≤ MAX_OUTPUT_OBS`, else an `ArgumentTypeError`.  (The braces in the
message are literal: the second half of the Python message is not an
f-string.) -/
def integer_in_range (obs : String) : IntRangeResult :=
  match pyInt obs with
  | none => IntRangeResult.valueError
  | some n =>
    if n < 1 ∨ n > MAX_OUTPUT_OBS then
      IntRangeResult.argumentTypeError
        ("The specified number of output observations \x27" ++ obs ++
          "\x27 must be between 1 and \x7bMAX_OUTPUT_OBS:,\x7d")
    else IntRangeResult.ok n

/-- The outcome of the `SASsession()` constructor call in `get_sas_session`,
by the exception classes the code distinguishes (each carries the
exception's text). -/
inductive ConstructResult
  | ok
  | ioConnectionError (msg : String)
  | configNotValidError (msg : String)
  | configNotFoundError (msg : String)
  | ioNotSupportedError (msg : String)
  | attributeError (msg : String)
deriving DecidableEq

/-- The exceptions that can escape `get_sas_session`. -/
inductive SessionError
  | ioConnection (msg : String)
  | configNotValid (msg : String)
deriving DecidableEq

/-- Result of `get_sas_session`: the session (modelled as `Unit`) or an
escaping exception, together with what was printed to stderr. -/
structure GetSessionResult where
  outcome : Except SessionError Unit
  stderrOut : List String

/-- The diagnostic `get_sas_session` prints and wraps into the normalized
error (the two f-string halves concatenate to a single message). -/
def configErrorMessage (e : String) : String :=
  "\nSaspy configuration error. Configuration file not found or is not valid: "
    ++ e

/-- `get_sas_session` from `src/sas_cli/_main.py` (lines 51–67): return the
constructed session; re-raise `SASIOConnectionError` unchanged; turn the
four configuration-class exceptions into a printed diagnostic plus a
normalized `SASConfigNotValidError`. -/
def get_sas_session : ConstructResult → GetSessionResult
  | ConstructResult.ok => ⟨Except.ok (), []⟩
  | ConstructResult.ioConnectionError m => ⟨Except.error (SessionError.ioConnection m), []⟩
  | ConstructResult.configNotValidError m =>
      ⟨Except.error (SessionError.configNotValid (configErrorMessage m)), [configErrorMessage m]⟩
  | ConstructResult.configNotFoundError m =>
      ⟨Except.error (SessionError.configNotValid (configErrorMessage m)), [configErrorMessage m]⟩
  | ConstructResult.ioNotSupportedError m =>
      ⟨Except.error (SessionError.configNotValid (configErrorMessage m)), [configErrorMessage m]⟩
  | ConstructResult.attributeError m =>
      ⟨Except.error (SessionError.configNotValid (configErrorMessage m)), [configErrorMessage m]⟩

/-- The parsed arguments `run_sas_program` reads (`args.program_path`,
`args.show_log`, the two logging directories resolved by `parse_args`, and
`args.config`).  The logging directories are strings; Python truthiness makes
`""` the "not configured" value. -/
structure RunArgs where
  program_path : String
  show_log : Bool
  sas_server_logging_dir : String
  local_logging_dir : String
  config : String
deriving DecidableEq

/-- The environment a `run_sas_program` invocation observes:

* `programText` — the full text `f.read()` returns for `args.program_path`
  (the claims only concern invocations whose file read succeeds);
* `fileexist` — whether `sas.symget("dir_exists", int())` returns 1 after the
  `FILEEXIST` probe submission;
* `syserr`, `syserrtext` — `sas.SYSERR()` and `sas.SYSERRORTEXT()` after the
  program submission;
* `submitLog` — `result["LOG"]` of the submission;
* `running i` — the value of `code_runner.running()` at its `i`-th poll in
  the live-log loop;
* `readline i` — the line `log_file.readline()` returns at the loop's `i`-th
  iteration (`none` for the empty string, i.e. no new data);
* `timeStr`, `stem` — `time.strftime("%H%M%S", ...)` and
  `pathlib.Path(args.program_path).stem`, used to build the log file names;
* `scaprocExists` — whether the scaproc output file appears for
  `print_output_info`;
* `outputTable`, `logErrorTable` — the two `tabulate.tabulate` renderings
  (their formatting is not re-modelled). -/
structure RunEnv where
  programText : String
  fileexist : Bool
  syserr : Int
  syserrtext : String
  submitLog : String
  running : Nat → Bool
  readline : Nat → Option String
  timeStr : String
  stem : String
  scaprocExists : Bool
  outputTable : String
  logErrorTable : String

/-- What a completed `run_sas_program` invocation produced: its return value,
both output streams, every payload passed to `sas.submit` in order, the
payload of the program submission itself, and whether the live-log path
collected `code_runner.result()`. -/
structure RunResult where
  ret : Nat
  stdout : List String
  stderr : List String
  submits : List String
  mainSubmitted : Option String
  resultCollected : Bool

/-- The `read_new_lines` generator driven by the `for` loop in the live-log
path (lines 173–189): while `code_runner.running()` is true, read a line;
an empty read continues the loop, otherwise the line is yielded (printed).
`fuel` bounds the number of iterations unrolled; `none` means the fuel ran
out with the worker still running (the loop has not terminated yet). -/
def readNewLines (running : Nat → Bool) (readline : Nat → Option String) :
    Nat → Nat → Option (List String)
  | 0, i => if running i then none else some []
  | fuel + 1, i =>
    if running i then
      match readline i with
      | none => readNewLines running readline fuel (i + 1)
      | some l => (readNewLines running readline fuel (i + 1)).map (fun ls => l :: ls)
    else some []

/-- `f"{time.strftime('%H%M%S', time.localtime())}_{pathlib.Path(args.program_path).stem}"`. -/
def baseFileName (env : RunEnv) : String := env.timeStr ++ "_" ++ env.stem

/-- `args.sas_server_logging_dir / (base_file_name + ".log")` — a
`PureWindowsPath`, joined with a backslash. -/
def logFileSas (args : RunArgs) (env : RunEnv) : String :=
  args.sas_server_logging_dir ++ "\\" ++ baseFileName env ++ ".log"

/-- `args.local_logging_dir / (base_file_name + ".log")` — a POSIX `Path`. -/
def logFileLocal (args : RunArgs) (env : RunEnv) : String :=
  args.local_logging_dir ++ "/" ++ baseFileName env ++ ".log"

/-- `args.sas_server_logging_dir / (base_file_name + ".txt")`. -/
def outputFileSas (args : RunArgs) (env : RunEnv) : String :=
  args.sas_server_logging_dir ++ "\\" ++ baseFileName env ++ ".txt"

/-- `args.local_logging_dir / (base_file_name + ".txt")`. -/
def outputFileLocal (args : RunArgs) (env : RunEnv) : String :=
  args.local_logging_dir ++ "/" ++ baseFileName env ++ ".txt"

/-- The guard `if args.sas_server_logging_dir and args.local_logging_dir:`
(line 122), with Python string truthiness. -/
def loggingConfigured (args : RunArgs) : Bool :=
  args.sas_server_logging_dir != "" && args.local_logging_dir != ""

/-- Whether file logging is established: both directories configured and the
`FILEEXIST` probe succeeded (`sas_write_to_files` in the code). -/
def writeToFiles (args : RunArgs) (env : RunEnv) : Bool :=
  loggingConfigured args && env.fileexist

/-- The `FILEEXIST` probe submitted on line 145. -/
def probeSubmit (args : RunArgs) (env : RunEnv) : String :=
  "%LET dir_exists = %SYSFUNC(FILEEXIST(" ++ logFileSas args env ++ "));"

/-- The `PROC SCAPROC` / `PROC PRINTTO` header prepended to the program text
when file logging is established (lines 148–152). -/
def preambleFor (outFile lgFile : String) : String :=
  "PROC SCAPROC;RECORD \"" ++ outFile ++ "\"; RUN;\n" ++
    "PROC PRINTTO LOG=\"" ++ lgFile ++ "\"; RUN;\n"

/-- The final value of `program_code`: the file text, prefixed with the
scaproc/printto preamble exactly when file logging is established. -/
def programCode (args : RunArgs) (env : RunEnv) : String :=
  if writeToFiles args env then
    preambleFor (outputFileSas args env) (logFileSas args env) ++ env.programText
  else env.programText

/-- The message printed when the logging directories are configured but SAS
cannot see the freshly created log file (lines 155–158). -/
def unableToLogMsg (args : RunArgs) (env : RunEnv) : String :=
  "SAS unable to log to " ++ logFileSas args env ++ " or " ++ logFileLocal args env ++
    " does not exist. Check config in " ++ args.config ++ "\n"

/-- Stdout produced before the submission branch: just the
`unableToLogMsg` warning, when the probe failed. -/
def preStdout (args : RunArgs) (env : RunEnv) : List String :=
  if loggingConfigured args && !env.fileexist then [unableToLogMsg args env] else []

/-- `print_output_info` (lines 70–102): print the tabulated scaproc output
info, or a warning to stderr when the file never appeared.  Returns the
(stdout, stderr) messages. -/
def print_output_info (scaprocExists : Bool) (outputTable : String) (file : String) :
    List String × List String :=
  if scaprocExists then
    (["\nOutput\n\n " ++ outputTable ++ "\n"], [])
  else
    ([], ["Unable to get output information (waited 5 secs). Check " ++ file ++ " exists."])

/-- The block after the session closes (lines 206–216): when file logging was
established, print the tabulated `ERROR` lines of the local log and then the
scaproc output info.  Returns the (stdout, stderr) messages. -/
def postBlock (args : RunArgs) (env : RunEnv) : List String × List String :=
  if writeToFiles args env then
    let po := print_output_info env.scaprocExists env.outputTable (outputFileLocal args env)
    (("\n" ++ env.logErrorTable) :: po.1, po.2)
  else ([], [])

/-- The payloads passed to `sas.submit` before the program submission: just
the `FILEEXIST` probe, when the logging directories are configured. -/
def probeList (args : RunArgs) (env : RunEnv) : List String :=
  if loggingConfigured args then [probeSubmit args env] else []

/-- The stderr report for a post-submission engine error (lines 199 and
217–221): the `RuntimeError` text `f"{sys_err}: {sys_err_text}"` wrapped in
the `except RuntimeError` message. -/
def runErrorMessage (args : RunArgs) (env : RunEnv) : String :=
  "\nAn error occured while running \x27" ++ args.program_path ++ "\x27: " ++
    toString env.syserr ++ ": " ++ env.syserrtext

/-- What the direct (non-live-log) path of `run_sas_program` produces
(lines 192–228): submit the program, optionally print the returned log,
then raise-and-catch `RuntimeError` (return 1, message to stderr) when the
error text is non-empty or the error code non-zero, else run the
post-session block and return 0. -/
def directResult (args : RunArgs) (env : RunEnv) : RunResult :=
  let logOut : List String := if args.show_log then [env.submitLog] else []
  if env.syserrtext != "" || env.syserr != 0 then
    { ret := 1,
      stdout := preStdout args env ++ logOut,
      stderr := [runErrorMessage args env],
      submits := probeList args env ++ [programCode args env],
      mainSubmitted := some (programCode args env),
      resultCollected := false }
  else
    { ret := 0,
      stdout := preStdout args env ++ logOut ++ (postBlock args env).1,
      stderr := (postBlock args env).2,
      submits := probeList args env ++ [programCode args env],
      mainSubmitted := some (programCode args env),
      resultCollected := false }

/-- What the live-log path of `run_sas_program` produces once the tail loop
has terminated with `printed` lines (lines 167–191 and 206–216): the
submission's result is collected, the error status is never consulted, the
post-session block runs, and the function returns 0. -/
def liveResult (args : RunArgs) (env : RunEnv) (printed : List String) : RunResult :=
  { ret := 0,
    stdout := preStdout args env ++ printed ++ (postBlock args env).1,
    stderr := (postBlock args env).2,
    submits := probeList args env ++ [programCode args env],
    mainSubmitted := some (programCode args env),
    resultCollected := true }

/-- `run_sas_program` from `src/sas_cli/_main.py` (lines 105–228).

The session constructor's outcome is `ctor`; a `SASIOConnectionError` or
`SASConfigNotValidError` escaping `get_sas_session` is caught and turns into
return value 1.  Otherwise: set up file logging (probe submission, preamble)
when both directories are configured; then either

* the live-log path (`args.show_log` and file logging established): run the
  submission on the worker, drive `read_new_lines` until the worker stops
  running (`none` when `fuel` iterations were not enough), collect
  `code_runner.result()`, and never consult `SYSERR`/`SYSERRORTEXT`; or
* the direct path: submit, optionally print the returned log, and raise
  `RuntimeError` — caught and reported to stderr with return value 1 — when
  the error text is non-empty or the error code non-zero.

The post-session block prints the log's error table and output info when
file logging was established and no exception was raised. -/
def run_sas_program (ctor : ConstructResult) (args : RunArgs) (env : RunEnv)
    (fuel : Nat) : Option RunResult :=
  let gs := get_sas_session ctor
  match gs.outcome with
  | Except.error _ =>
      some { ret := 1, stdout := [], stderr := gs.stderrOut, submits := [],
             mainSubmitted := none, resultCollected := false }
  | Except.ok _ =>
    if args.show_log && writeToFiles args env then
      (readNewLines env.running env.readline fuel 0).map (liveResult args env)
    else
      some (directResult args env)

/-- What a `get_sas_data` invocation produced, with call counts for the two
dataset accessors. -/
structure DataResult where
  ret : Nat
  columnInfoCalls : Nat
  toDfCalls : Nat
  stdout : List String
  stderr : List String
deriving DecidableEq

/-- `get_sas_data` from `src/sas_cli/_main.py` (lines 251–287): open the
session, call `sasdata` (assumed to succeed, per the claims), then inside a
`try`: call `columnInfo()` once; print it if `info_only`, else call and
print `to_df()`; a `ValueError` from either accessor is printed to stderr
with return value 1.  `columnInfo`/`toDf` give each accessor's outcome
(`Except.error` = it raises `ValueError` with that message). -/
def get_sas_data (ctor : ConstructResult) (info_only : Bool)
    (columnInfo toDf : Except String String) : DataResult :=
  let gs := get_sas_session ctor
  match gs.outcome with
  | Except.error _ =>
      { ret := 1, columnInfoCalls := 0, toDfCalls := 0, stdout := [], stderr := gs.stderrOut }
  | Except.ok _ =>
    match columnInfo with
    | Except.error e =>
        { ret := 1, columnInfoCalls := 1, toDfCalls := 0, stdout := [], stderr := [e] }
    | Except.ok ci =>
      if info_only then
        { ret := 0, columnInfoCalls := 1, toDfCalls := 0, stdout := [ci], stderr := [] }
      else
        match toDf with
        | Except.error e =>
            { ret := 1, columnInfoCalls := 1, toDfCalls := 1, stdout := [], stderr := [e] }
        | Except.ok df =>
            { ret := 0, columnInfoCalls := 1, toDfCalls := 1, stdout := [df], stderr := [] }

/-- What a `get_sas_lib` invocation produced. -/
structure LibResult where
  ret : Nat
  stdout : List String
  stderr : List String
deriving DecidableEq

/-- `get_sas_lib` from `src/sas_cli/_main.py` (lines 231–248): open the
session, call `list_tables` (`list_tables` is its returned value, `none`
modelling Python `None`), print the value when it is not `None`, and return
0; a session error returns 1. -/
def get_sas_lib (ctor : ConstructResult) (list_tables : Option String) : LibResult :=
  let gs := get_sas_session ctor
  match gs.outcome with
  | Except.error _ => { ret := 1, stdout := [], stderr := gs.stderrOut }
  | Except.ok _ =>
    match list_tables with
    | some t => { ret := 0, stdout := [t], stderr := [] }
    | none => { ret := 0, stdout := [], stderr := [] }

/-- The structured form of the subcommand part of the argument vector
(`run`, `data`, `lib`, or no subcommand).  Only the fields the dispatch and
the claims consult are carried. -/
inductive Command
  | runCmd (program_path : String) (show_log : Bool)
  | dataCmd (dataset : String) (info_only : Bool)
  | libCmd (libref : String)
deriving DecidableEq

/-- `CONFIG_FILE` from `src/sas_cli/_main.py` line 24, the default of the
`--config` (`-c`) option. -/
def CONFIG_FILE : String := "config.ini"

/-- The first-stage `parse_known_args` scan for `--config` (`-c`): the last
occurrence wins; both the separated (`--config value`) and the `=` form are
modelled.  A trailing flag with no value (which argparse rejects) keeps the
accumulator. -/
def configScan : List String → String → String
  | [], acc => acc
  | a :: rest, acc =>
    if a = "-c" ∨ a = "--config" then
      match rest with
      | v :: rest2 => configScan rest2 v
      | [] => acc
    else if strStartsWith a "--config=" then configScan rest (strDrop a 9)
    else configScan rest acc

/-- The config-file path `parse_args` resolves from the argument vector
(default `config.ini`). -/
def configOf (argv : List String) : String := configScan argv CONFIG_FILE

/-- The ways `parse_args` can fail to return:

* `noSection` — `config.items("LOGGING")` raises
  `configparser.NoSectionError`, which nothing catches;
* `argExit` — argparse turns an `ArgumentTypeError` from an argument's type
  converter into `parser.error(...)`, i.e. `SystemExit(2)`. -/
inductive ParseError
  | noSection (file : String)
  | argExit (msg : String)
deriving DecidableEq

/-- The parsed namespace the dispatch in `main` consults. -/
structure ParsedArgs where
  config : String
  sas_server_logging_dir : String
  local_logging_dir : String
  cmd : Option Command
deriving DecidableEq

/-- The logging directories after the config read: the `LOGGING` values when
a config file path is set, the `""` defaults otherwise. -/
def resolvedDirs (fs : FS) (argv : List String) : String × String :=
  if configOf argv != "" then fs.loggingDirs (configOf argv) else ("", "")

/-- `parse_args` from `src/sas_cli/_main.py` (lines 290–408): resolve the
`--config` path from the raw argument vector; when it is truthy, read the
INI file and take its `LOGGING` items — `configparser` raises
`NoSectionError` when the section is absent (a missing file reads as empty,
so it has no sections) and nothing catches it; then parse the subcommand
(given here in structured form as `cmd`), running the `run` subcommand's
`program_path` through `valid_sas_file` (a failure makes argparse exit with
status 2).  The `data` subcommand's option converters are not modelled. -/
def parse_args (fs : FS) (argv : List String) (cmd : Option Command) :
    Except ParseError ParsedArgs :=
  let cfg := configOf argv
  if cfg != "" && !((fs.iniSections cfg).contains "LOGGING") then
    Except.error (ParseError.noSection cfg)
  else
    let dirs := resolvedDirs fs argv
    match cmd with
    | some (Command.runCmd p _) =>
      match valid_sas_file fs p with
      | ValidateResult.ok _ => Except.ok ⟨cfg, dirs.1, dirs.2, cmd⟩
      | ValidateResult.argumentTypeError m => Except.error (ParseError.argExit m)
    | _ => Except.ok ⟨cfg, dirs.1, dirs.2, cmd⟩

/-- The dispatch in `main` (lines 411–421) on an already-parsed namespace:
forward to the selected operation and return its value (0 with no
subcommand).  `none` propagates a live-log loop that has not terminated. -/
def main (a : ParsedArgs) (ctor : ConstructResult) (env : RunEnv)
    (columnInfo toDf : Except String String) (list_tables : Option String)
    (fuel : Nat) : Option Nat :=
  match a.cmd with
  | some (Command.runCmd p sl) =>
    (run_sas_program ctor ⟨p, sl, a.sas_server_logging_dir, a.local_logging_dir, a.config⟩
        env fuel).map RunResult.ret
  | some (Command.dataCmd _ infoOnly) => some (get_sas_data ctor infoOnly columnInfo toDf).ret
  | some (Command.libCmd _) => some (get_sas_lib ctor list_tables).ret
  | none => some 0

/-- The process exit status of `raise SystemExit(main())`
(`src/sas_cli/_main.py` lines 411–425), with the interpreter-level outcomes
of `parse_args`: an uncaught `NoSectionError` ends the process with status
1, argparse's `parser.error` exits with status 2, and otherwise the value
`main` returns is the exit status. -/
def cliExitCode (fs : FS) (argv : List String) (cmd : Option Command)
    (ctor : ConstructResult) (env : RunEnv) (columnInfo toDf : Except String String)
    (list_tables : Option String) (fuel : Nat) : Option Nat :=
  match parse_args fs argv cmd with
  | Except.error (ParseError.noSection _) => some 1
  | Except.error (ParseError.argExit _) => some 2
  | Except.ok a => main a ctor env columnInfo toDf list_tables fuel

/-- The `RunArgs` record `main` hands to `run_sas_program` for a
`run program_path [--show-log]` invocation after `parse_args`. -/
def argsFromParse (fs : FS) (argv : List String) (p : String) (sl : Bool) : RunArgs :=
  ⟨p, sl, (resolvedDirs fs argv).1, (resolvedDirs fs argv).2, configOf argv⟩

/-- A file system where every path opens and every INI file has a `LOGGING`
section with empty directory values. -/
def fsAllOpen : FS := ⟨fun _ => true, fun _ => "", fun _ => ["LOGGING"], fun _ => ("", "")⟩

/-- A file system where no path opens and every INI file reads as empty (the
state `ConfigParser.read` leaves for a missing file). -/
def fsEmptyIni : FS := ⟨fun _ => false, fun _ => "", fun _ => [], fun _ => ("", "")⟩

/-- A file system where only `f.txt` (not a `.sas` file) can be opened. -/
def fsTxtOnly : FS := ⟨fun p => p == "f.txt", fun _ => "", fun _ => ["LOGGING"], fun _ => ("", "")⟩

/-- A `run --show-log` invocation with both logging directories configured. -/
def liveArgs : RunArgs := ⟨"prog.sas", true, "S", "L", "config.ini"⟩

/-- A `run` invocation (no `--show-log`) with both logging directories
configured. -/
def logArgs : RunArgs := ⟨"prog.sas", false, "S", "L", "config.ini"⟩

/-- A plain `run` invocation: no `--show-log`, no logging directories. -/
def plainArgs : RunArgs := ⟨"prog.sas", false, "", "", "config.ini"⟩

/-- An environment whose engine reports error 1012 after the submission, with
the `FILEEXIST` probe succeeding and the worker finishing immediately. -/
def liveEnv : RunEnv :=
  { programText := "DATA a; RUN;"
    fileexist := true
    syserr := 1012
    syserrtext := "File WORK.DOESNOTEXIST.DATA does not exist."
    submitLog := "the log"
    running := fun _ => false
    readline := fun _ => none
    timeStr := "120000"
    stem := "prog"
    scaprocExists := true
    outputTable := "tbl"
    logErrorTable := "errs" }

/-- An environment whose engine reports no error. -/
def plainEnv : RunEnv :=
  { programText := "DATA a; RUN;"
    fileexist := false
    syserr := 0
    syserrtext := ""
    submitLog := "the log"
    running := fun _ => false
    readline := fun _ => none
    timeStr := "120000"
    stem := "prog"
    scaprocExists := false
    outputTable := "tbl"
    logErrorTable := "errs" }

/-- Like `plainEnv`, but the engine reports error 1012. -/
def errEnv : RunEnv :=
  { plainEnv with
    syserr := 1012
    syserrtext := "File WORK.DOESNOTEXIST.DATA does not exist." }

/-- C2: for every path string, `valid_sas_file` raises the typed validation
error (`argparse.ArgumentTypeError`) exactly when the file cannot be opened
or the path does not end in `.sas`, and otherwise returns the path string
unchanged. -/
theorem C2_valid_sas_file (fs : FS) (p : String) :
    ((∃ m, valid_sas_file fs p = ValidateResult.argumentTypeError m) ↔
      (fs.canOpen p = false ∨ strEndsWith p ".sas" = false))
    ∧ (fs.canOpen p = true → strEndsWith p ".sas" = true →
        valid_sas_file fs p = ValidateResult.ok p) := by
  unfold valid_sas_file
  cases h1 : fs.canOpen p <;> cases h2 : strEndsWith p ".sas" <;> simp [h1, h2]

/-- Witness for C2 at the openable path `prog.sas`. -/
theorem C2_valid_sas_file_witness :
    fsAllOpen.canOpen "prog.sas" = true ∧ strEndsWith "prog.sas" ".sas" = true ∧
      valid_sas_file fsAllOpen "prog.sas" = ValidateResult.ok "prog.sas" :=
  ⟨rfl, by decide, (C2_valid_sas_file fsAllOpen "prog.sas").2 rfl (by decide)⟩

/-- C5: `get_sas_session` returns the constructed session when construction
succeeds; re-raises `SASIOConnectionError` unchanged with nothing printed;
and on each of the four configuration-class exceptions prints the diagnostic
to stderr and raises the normalized `SASConfigNotValidError` carrying that
diagnostic. -/
theorem C5_get_sas_session (m : String) :
    get_sas_session ConstructResult.ok = ⟨Except.ok (), []⟩
    ∧ get_sas_session (ConstructResult.ioConnectionError m) =
        ⟨Except.error (SessionError.ioConnection m), []⟩
    ∧ get_sas_session (ConstructResult.configNotValidError m) =
        ⟨Except.error (SessionError.configNotValid (configErrorMessage m)), [configErrorMessage m]⟩
    ∧ get_sas_session (ConstructResult.configNotFoundError m) =
        ⟨Except.error (SessionError.configNotValid (configErrorMessage m)), [configErrorMessage m]⟩
    ∧ get_sas_session (ConstructResult.ioNotSupportedError m) =
        ⟨Except.error (SessionError.configNotValid (configErrorMessage m)), [configErrorMessage m]⟩
    ∧ get_sas_session (ConstructResult.attributeError m) =
        ⟨Except.error (SessionError.configNotValid (configErrorMessage m)), [configErrorMessage m]⟩ :=
  ⟨rfl, rfl, rfl, rfl, rfl, rfl⟩

/-- C6 counterexample: with the session open, `info_only` false and a
`columnInfo` call that raises `ValueError`, the row-fetch accessor `to_df`
is never called — refuting "called if and only if `info_only` is false". -/
theorem C6_counterexample :
    (get_sas_data ConstructResult.ok false (Except.error "bad where clause")
        (Except.ok "df")).toDfCalls = 0
    ∧ (get_sas_data ConstructResult.ok false (Except.error "bad where clause")
        (Except.ok "df")).columnInfoCalls = 1 :=
  ⟨rfl, rfl⟩

/-- C6 (amended): when the session opens and `sasdata` succeeds,
`columnInfo` is called exactly once, and `to_df` is called if and only if
`info_only` is false and the `columnInfo` call does not raise. -/
theorem C6_get_sas_data_calls (infoOnly : Bool) (ci td : Except String String) :
    (get_sas_data ConstructResult.ok infoOnly ci td).columnInfoCalls = 1
    ∧ ((get_sas_data ConstructResult.ok infoOnly ci td).toDfCalls = 1 ↔
        (infoOnly = false ∧ ∃ s, ci = Except.ok s)) := by
  unfold get_sas_data get_sas_session
  cases ci <;> cases infoOnly <;> cases td <;> simp

/-- C7: when the session opens and `list_tables` returns a non-empty value,
exactly that value is printed to stdout and the function returns 0. -/
theorem C7_get_sas_lib (t : String) (h : t ≠ "") :
    get_sas_lib ConstructResult.ok (some t) = { ret := 0, stdout := [t], stderr := [] } :=
  rfl

/-- Witness for C7 at the non-empty listing `TABLE1`. -/
theorem C7_get_sas_lib_witness :
    ("TABLE1" : String) ≠ "" ∧
      get_sas_lib ConstructResult.ok (some "TABLE1") =
        { ret := 0, stdout := ["TABLE1"], stderr := [] } :=
  ⟨by decide, C7_get_sas_lib "TABLE1" (by decide)⟩

/-- C9: if the string parses as an integer `n`, `integer_in_range` returns
`n` when `1 ≤ n ≤ 10000` and raises `argparse.ArgumentTypeError` when
`n < 1` or `n > 10000`; a non-integer string raises a plain `ValueError`
(from `int()`) rather than the typed argument error. -/
theorem C9_integer_in_range (s : String) :
    (∀ n : Int, pyInt s = some n →
      ((1 ≤ n ∧ n ≤ MAX_OUTPUT_OBS) → integer_in_range s = IntRangeResult.ok n)
      ∧ ((n < 1 ∨ n > MAX_OUTPUT_OBS) →
          ∃ m, integer_in_range s = IntRangeResult.argumentTypeError m))
    ∧ (pyInt s = none → integer_in_range s = IntRangeResult.valueError) := by
  constructor
  · intro n hn
    constructor
    · intro hr
      have hc : ¬(n < 1 ∨ n > MAX_OUTPUT_OBS) := by
        unfold MAX_OUTPUT_OBS at *; omega
      simp [integer_in_range, hn, hc]
    · intro hr
      simp [integer_in_range, hn, hr]
  · intro h
    simp [integer_in_range, h]

/-- Witness for C9 at the strings `42` (in range), `0` (out of range) and
`x` (not an integer). -/
theorem C9_integer_in_range_witness :
    (pyInt "42" = some 42 ∧ integer_in_range "42" = IntRangeResult.ok 42)
    ∧ (pyInt "0" = some 0 ∧
        ∃ m, integer_in_range "0" = IntRangeResult.argumentTypeError m)
    ∧ (pyInt "x" = none ∧ integer_in_range "x" = IntRangeResult.valueError) :=
  ⟨⟨by decide, ((C9_integer_in_range "42").1 42 (by decide)).1 (by decide)⟩,
   ⟨by decide, ((C9_integer_in_range "0").1 0 (by decide)).2 (by decide)⟩,
   ⟨by decide, (C9_integer_in_range "x").2 (by decide)⟩⟩

/-- C10 counterexample: with `--config ""` the guard
`if config_args.config:` skips the config read entirely, so although the
configured path `""` has no `LOGGING` section (it reads as empty),
`parse_args` succeeds instead of raising `NoSectionError`. -/
theorem C10_counterexample :
    fsEmptyIni.iniSections (configOf ["--config", ""]) = [] ∧
      parse_args fsEmptyIni ["--config", ""] (some (Command.libCmd "WORK")) =
        Except.ok ⟨"", "", "", some (Command.libCmd "WORK")⟩ :=
  ⟨rfl, rfl⟩

/-- C10 (amended): for every argument vector whose resolved config path is
non-empty (the default is `config.ini`), when the configured INI file does
not contain a `LOGGING` section — including when the file does not exist,
since a missing file is silently read as empty — `parse_args` raises
`configparser.NoSectionError` before any subcommand work (the structured
subcommand `cmd` is arbitrary and never consulted). -/
theorem C10_parse_args_no_section (fs : FS) (argv : List String) (cmd : Option Command)
    (hne : configOf argv ≠ "")
    (hns : (fs.iniSections (configOf argv)).contains "LOGGING" = false) :
    parse_args fs argv cmd = Except.error (ParseError.noSection (configOf argv)) := by
  unfold parse_args
  have hns' : "LOGGING" ∉ fs.iniSections (configOf argv) := by simpa using hns
  have hc : (configOf argv != "" && !((fs.iniSections (configOf argv)).contains "LOGGING")) = true := by
    simp [hne, hns']
  simp only [hc, if_true]

/-- Witness for C10: the default `config.ini` against a file system with no
readable INI file. -/
theorem C10_parse_args_no_section_witness :
    configOf ["run", "prog.sas"] ≠ "" ∧
      (fsEmptyIni.iniSections (configOf ["run", "prog.sas"])).contains "LOGGING" = false ∧
      parse_args fsEmptyIni ["run", "prog.sas"]
          (some (Command.runCmd "prog.sas" false)) =
        Except.error (ParseError.noSection (configOf ["run", "prog.sas"])) :=
  ⟨by decide, by decide,
    C10_parse_args_no_section fsEmptyIni ["run", "prog.sas"]
      (some (Command.runCmd "prog.sas" false)) (by decide) (by decide)⟩

/-- Helper: when the live-log path is not taken, `run_sas_program` with an
open session returns the direct-path result, whatever the fuel. -/
theorem run_sas_program_ok_direct (args : RunArgs) (env : RunEnv) (fuel : Nat)
    (hlive : (args.show_log && writeToFiles args env) = false) :
    run_sas_program ConstructResult.ok args env fuel = some (directResult args env) := by
  simp [run_sas_program, get_sas_session, hlive]

/-- C1 counterexample: on the live-log path (`--show-log` with file logging
established) the engine's error status is never consulted: with
`SYSERR() = 1012` the function still returns 0 and writes nothing to
stderr. -/
theorem C1_counterexample :
    liveEnv.syserr = 1012 ∧
      (run_sas_program ConstructResult.ok liveArgs liveEnv 1).map RunResult.ret = some 0 ∧
      (run_sas_program ConstructResult.ok liveArgs liveEnv 1).map RunResult.stderr = some [] :=
  ⟨rfl, rfl, rfl⟩

/-- C1 (amended): for every invocation whose file read, session open and
submit call succeed and which does not take the live-log path (`--show-log`
with file logging established), the function returns 1 with a stderr message
containing the engine's numeric error code and its error text if and only if
the post-submission error code is non-zero or the error text is non-empty;
when the code is zero and the text is empty it returns 0. -/
theorem C1_run_error_reporting (args : RunArgs) (env : RunEnv) (fuel : Nat)
    (hlive : (args.show_log && writeToFiles args env) = false) :
    ∃ r, run_sas_program ConstructResult.ok args env fuel = some r ∧
      ((r.ret = 1 ∧ ∃ pre, r.stderr = [pre ++ toString env.syserr ++ ": " ++ env.syserrtext])
        ↔ (env.syserr ≠ 0 ∨ env.syserrtext ≠ ""))
      ∧ ((env.syserr = 0 ∧ env.syserrtext = "") → r.ret = 0) := by
  refine ⟨directResult args env, run_sas_program_ok_direct args env fuel hlive, ?_, ?_⟩
  · cases herr : (env.syserrtext != "" || env.syserr != 0) with
    | false =>
      have h := herr
      simp only [Bool.or_eq_false_iff, bne_eq_false_iff_eq] at h
      simp [directResult, herr, h.1, h.2]
    | true =>
      have h := herr
      simp only [Bool.or_eq_true, bne_iff_ne, ne_eq] at h
      constructor
      · intro _
        tauto
      · intro _
        refine ⟨?_, "\nAn error occured while running \x27" ++ args.program_path ++ "\x27: ", ?_⟩
        · simp [directResult, herr]
        · simp [directResult, herr, runErrorMessage]
  · rintro ⟨h0, ht⟩
    have hc : (env.syserrtext != "" || env.syserr != 0) = false := by simp [h0, ht]
    simp [directResult, hc]

/-- Witness for C1: a plain `run` (no live log) with a clean engine status
exits with 0. -/
theorem C1_run_error_reporting_witness :
    (run_sas_program ConstructResult.ok plainArgs plainEnv 0).map RunResult.ret = some 0 := by
  obtain ⟨r, hr, _, h0⟩ := C1_run_error_reporting plainArgs plainEnv 0 (by decide)
  rw [hr]
  simp [h0 ⟨rfl, rfl⟩]

/-- C4 counterexample: with the logging directories configured and the
`FILEEXIST` probe succeeding, the payload of the program submission is the
`PROC SCAPROC` / `PROC PRINTTO` preamble followed by the file text — not the
file text itself. -/
theorem C4_counterexample :
    (run_sas_program ConstructResult.ok logArgs liveEnv 0).map RunResult.mainSubmitted =
      some (some ("PROC SCAPROC;RECORD \"S\\120000_prog.txt\"; RUN;\nPROC PRINTTO LOG=\"S\\120000_prog.log\"; RUN;\nDATA a; RUN;"))
    ∧ ("PROC SCAPROC;RECORD \"S\\120000_prog.txt\"; RUN;\nPROC PRINTTO LOG=\"S\\120000_prog.log\"; RUN;\nDATA a; RUN;" : String)
        ≠ liveEnv.programText :=
  ⟨rfl, by decide⟩

/-- C4 (amended): when the session opens and file logging is not established
(directories unconfigured or the `FILEEXIST` probe failing), the program
text passed to the session's submit call equals exactly the full text read
from the program file; when file logging is established it equals that text
prefixed with the scaproc/printto preamble. -/
theorem C4_submitted_program (args : RunArgs) (env : RunEnv) (fuel : Nat)
    (hw : writeToFiles args env = false) :
    ∃ r, run_sas_program ConstructResult.ok args env fuel = some r ∧
      r.mainSubmitted = some env.programText := by
  have hlive : (args.show_log && writeToFiles args env) = false := by simp [hw]
  refine ⟨directResult args env, run_sas_program_ok_direct args env fuel hlive, ?_⟩
  cases hc : (env.syserrtext != "" || env.syserr != 0) <;>
    simp [directResult, hc, programCode, hw]

/-- Witness for C4: a plain `run` submits exactly the file text. -/
theorem C4_submitted_program_witness :
    ∃ r, run_sas_program ConstructResult.ok plainArgs plainEnv 0 = some r ∧
      r.mainSubmitted = some plainEnv.programText :=
  C4_submitted_program plainArgs plainEnv 0 (by decide)

/-- Helper: the tail loop terminates within `fuel` iterations as soon as the
worker's running flag is false at most `fuel` polls ahead. -/
theorem readNewLines_term (running : Nat → Bool) (readline : Nat → Option String) :
    ∀ k i fuel, running (i + k) = false → k ≤ fuel →
      (readNewLines running readline fuel i).isSome = true := by
  intro k
  induction k with
  | zero =>
    intro i fuel h _
    have hi : running i = false := by simpa using h
    cases fuel with
    | zero => simp [readNewLines, hi]
    | succ f => simp [readNewLines, hi]
  | succ k ih =>
    intro i fuel h hle
    cases fuel with
    | zero => exact absurd hle (by omega)
    | succ f =>
      by_cases hr : running i = true
      · have h' : running ((i + 1) + k) = false := by
          have e : (i + 1) + k = i + (k + 1) := by omega
          rw [e]; exact h
        have hrec := ih (i + 1) f h' (by omega)
        cases hrl : readline i with
        | none => simp [readNewLines, hr, hrl, hrec]
        | some l => simp [readNewLines, hr, hrl, hrec]
      · simp [readNewLines, hr]

/-- C8: in the live-log path (`--show-log` and file logging established),
once the worker future reports that it is no longer running (at poll `N`),
the foreground read-and-print loop terminates — `N + 1` iterations suffice —
after which the submission's result is collected. -/
theorem C8_live_loop_terminates (args : RunArgs) (env : RunEnv) (N : Nat)
    (hsl : args.show_log = true) (hw : writeToFiles args env = true)
    (hstop : env.running N = false) :
    (readNewLines env.running env.readline (N + 1) 0).isSome = true
    ∧ ∃ r, run_sas_program ConstructResult.ok args env (N + 1) = some r ∧
        r.resultCollected = true := by
  have hterm := readNewLines_term env.running env.readline N 0 (N + 1)
    (by simpa using hstop) (Nat.le_succ N)
  refine ⟨hterm, ?_⟩
  obtain ⟨ls, hls⟩ := Option.isSome_iff_exists.mp hterm
  refine ⟨liveResult args env ls, ?_, rfl⟩
  simp [run_sas_program, get_sas_session, hsl, hw, hls]

/-- Witness for C8: a worker that has already stopped at the first poll. -/
theorem C8_live_loop_terminates_witness :
    (readNewLines liveEnv.running liveEnv.readline 1 0).isSome = true
    ∧ ∃ r, run_sas_program ConstructResult.ok liveArgs liveEnv 1 = some r ∧
        r.resultCollected = true :=
  C8_live_loop_terminates liveArgs liveEnv 0 rfl (by decide) rfl

/-- C3 counterexample: when program-path validation fails (an openable file
without the `.sas` suffix), the process exits with argparse's status 2, not
with status 1. -/
theorem C3_counterexample :
    (∃ m, valid_sas_file fsTxtOnly "f.txt" = ValidateResult.argumentTypeError m)
    ∧ cliExitCode fsTxtOnly [] (some (Command.runCmd "f.txt" false)) ConstructResult.ok
        plainEnv (Except.ok "ci") (Except.ok "df") none 0 ≠ some 1
    ∧ cliExitCode fsTxtOnly [] (some (Command.runCmd "f.txt" false)) ConstructResult.ok
        plainEnv (Except.ok "ci") (Except.ok "df") none 0 = some 2 :=
  ⟨⟨_, rfl⟩, by decide, rfl⟩

/-- C3 (amended): for every CLI invocation that gets past the config read,
the process exit status is 2 (argparse's error exit) when the `run`
subcommand's program-path validation fails; it is 1 when the connection to
the engine fails (or its configuration is invalid), for each of the `run`,
`data` and `lib` subcommands; and with the session constructing it is 0 on
success — a `run` with clean engine status off the live-log path, a `data`
whose accessors succeed, a `lib`, or no subcommand at all — and 1 when the
engine reports an error on a `run` off the live-log path. -/
theorem C3_exit_codes (fs : FS) (argv : List String) (cmd : Option Command)
    (ctor : ConstructResult) (env : RunEnv) (ci td : Except String String)
    (lt : Option String) (fuel : Nat)
    (hcfg : configOf argv = "" ∨ (fs.iniSections (configOf argv)).contains "LOGGING" = true) :
    (∀ p sl, cmd = some (Command.runCmd p sl) →
      (∃ m, valid_sas_file fs p = ValidateResult.argumentTypeError m) →
      cliExitCode fs argv cmd ctor env ci td lt fuel = some 2)
    ∧ (∀ m, (ctor = ConstructResult.ioConnectionError m ∨
          ctor = ConstructResult.configNotValidError m) →
        (∀ p sl, cmd = some (Command.runCmd p sl) →
          valid_sas_file fs p = ValidateResult.ok p →
          cliExitCode fs argv cmd ctor env ci td lt fuel = some 1)
        ∧ (∀ d fl, cmd = some (Command.dataCmd d fl) →
          cliExitCode fs argv cmd ctor env ci td lt fuel = some 1)
        ∧ (∀ l, cmd = some (Command.libCmd l) →
          cliExitCode fs argv cmd ctor env ci td lt fuel = some 1))
    ∧ (ctor = ConstructResult.ok →
        (∀ p sl, cmd = some (Command.runCmd p sl) →
          valid_sas_file fs p = ValidateResult.ok p →
          (sl && writeToFiles (argsFromParse fs argv p sl) env) = false →
          ((env.syserr = 0 ∧ env.syserrtext = "" →
              cliExitCode fs argv cmd ctor env ci td lt fuel = some 0)
            ∧ ((env.syserr ≠ 0 ∨ env.syserrtext ≠ "") →
              cliExitCode fs argv cmd ctor env ci td lt fuel = some 1)))
        ∧ (∀ d fl, cmd = some (Command.dataCmd d fl) →
          (∃ s, ci = Except.ok s) → (∃ s, td = Except.ok s) →
          cliExitCode fs argv cmd ctor env ci td lt fuel = some 0)
        ∧ (∀ l, cmd = some (Command.libCmd l) →
          cliExitCode fs argv cmd ctor env ci td lt fuel = some 0)
        ∧ (cmd = none →
          cliExitCode fs argv cmd ctor env ci td lt fuel = some 0)) := by
  have hni : ¬(¬configOf argv = "" ∧ "LOGGING" ∉ fs.iniSections (configOf argv)) := by
    rcases hcfg with h | h
    · exact fun hc => hc.1 h
    · exact fun hc => hc.2 (by simpa using h)
  refine ⟨?_, ?_, ?_⟩
  · rintro p sl rfl ⟨m, hm⟩
    simp [cliExitCode, parse_args, hni, hm]
  · rintro m (hc | hc) <;> subst hc <;> refine ⟨?_, ?_, ?_⟩
    · rintro p sl rfl hv
      simp [cliExitCode, parse_args, hni, hv, main, run_sas_program, get_sas_session]
    · rintro d fl rfl
      simp [cliExitCode, parse_args, hni, main, get_sas_data, get_sas_session]
    · rintro l rfl
      simp [cliExitCode, parse_args, hni, main, get_sas_lib, get_sas_session]
    · rintro p sl rfl hv
      simp [cliExitCode, parse_args, hni, hv, main, run_sas_program, get_sas_session]
    · rintro d fl rfl
      simp [cliExitCode, parse_args, hni, main, get_sas_data, get_sas_session]
    · rintro l rfl
      simp [cliExitCode, parse_args, hni, main, get_sas_lib, get_sas_session]
  · rintro rfl
    refine ⟨?_, ?_, ?_, ?_⟩
    · rintro p sl rfl hv hlive
      have hmain : cliExitCode fs argv (some (Command.runCmd p sl)) ConstructResult.ok env ci td lt fuel =
          (run_sas_program ConstructResult.ok (argsFromParse fs argv p sl) env fuel).map RunResult.ret := by
        simp [cliExitCode, parse_args, hni, hv, main, argsFromParse]
      have hrun := run_sas_program_ok_direct (argsFromParse fs argv p sl) env fuel
        (by simpa [argsFromParse] using hlive)
      constructor
      · rintro ⟨h0, ht⟩
        have hcond : (env.syserrtext != "" || env.syserr != 0) = false := by simp [h0, ht]
        rw [hmain, hrun]
        simp [directResult, hcond]
      · intro hor
        have hcond : (env.syserrtext != "" || env.syserr != 0) = true := by
          rcases hor with h | h <;> simp [h]
        rw [hmain, hrun]
        simp [directResult, hcond]
    · rintro d fl rfl ⟨s1, hs1⟩ ⟨s2, hs2⟩
      subst hs1; subst hs2
      cases fl <;>
        simp [cliExitCode, parse_args, hni, main, get_sas_data, get_sas_session]
    · rintro l rfl
      cases lt <;>
        simp [cliExitCode, parse_args, hni, main, get_sas_lib, get_sas_session]
    · rintro rfl
      simp [cliExitCode, parse_args, hni, main]

/-- Witness for C3: a failed connection exits with status 1 on a valid
`run` and on a `data` invocation, and a `lib` invocation with the session
constructing exits with status 0. -/
theorem C3_exit_codes_witness :
    cliExitCode fsAllOpen [] (some (Command.runCmd "prog.sas" false))
        (ConstructResult.ioConnectionError "down") plainEnv (Except.ok "ci")
        (Except.ok "df") none 0 = some 1
    ∧ cliExitCode fsAllOpen [] (some (Command.dataCmd "tbl" false))
        (ConstructResult.ioConnectionError "down") plainEnv (Except.ok "ci")
        (Except.ok "df") none 0 = some 1
    ∧ cliExitCode fsAllOpen [] (some (Command.libCmd "WORK"))
        ConstructResult.ok plainEnv (Except.ok "ci")
        (Except.ok "df") (some "TABLE1") 0 = some 0 :=
  ⟨((C3_exit_codes fsAllOpen [] (some (Command.runCmd "prog.sas" false))
        (ConstructResult.ioConnectionError "down") plainEnv (Except.ok "ci")
        (Except.ok "df") none 0 (Or.inr (by decide))).2.1 "down" (Or.inl rfl)).1
      "prog.sas" false rfl (by decide),
   ((C3_exit_codes fsAllOpen [] (some (Command.dataCmd "tbl" false))
        (ConstructResult.ioConnectionError "down") plainEnv (Except.ok "ci")
        (Except.ok "df") none 0 (Or.inr (by decide))).2.1 "down" (Or.inl rfl)).2.1
      "tbl" false rfl,
   ((C3_exit_codes fsAllOpen [] (some (Command.libCmd "WORK"))
        ConstructResult.ok plainEnv (Except.ok "ci")
        (Except.ok "df") (some "TABLE1") 0 (Or.inr (by decide))).2.2 rfl).2.2.1
      "WORK" rfl⟩

end SasCli
